import Mathlib

/-!
Shallow embedding of `multilist/src/lib.rs` (pcwalton/multilist): an intrusive
multi-list container.  Raw pointers are modelled as `Option Nat` (ids into an
association-list heap; `none` is the null pointer).  Operations that can hit a
fatal `assert!`/`debug_assert!`, an out-of-range index, or a dereference of
freed storage return `Option`; `none` models the fatal failure / undefined
behaviour.  `debug_assert!` checks are modelled as enforced (debug build).
The byte-level layout arithmetic of `MultilistElementHolder::size` is memory
layout and is not modelled beyond its `debug_assert!(list_count > 0)`.
-/

/-- `MultilistPointers` (src/lib.rs:263-266): the (next, prev) link pair of one
element for one list.  Null pointers are `none`. -/
structure MultilistPointers where
  next : Option Nat
  prev : Option Nat
deriving DecidableEq

/-- `MultilistListPointers` (src/lib.rs:285-288): the (head, tail) entry of the
list table for one list. -/
structure MultilistListPointers where
  head : Option Nat
  tail : Option Nat
deriving DecidableEq

/-- `MultilistElementHolder` (src/lib.rs:157-161): one heap allocation holding
the value and one link pair per list.  The `associated_multilist` back
reference is not modelled: we model a single container, so the
`assert!(element.associated_multilist() == self)` checks always pass. -/
structure MultilistElementHolder (Value : Type) where
  value : Value
  pointers : List MultilistPointers

/-- `Multilist` (src/lib.rs:32-34) together with the heap of element holders it
owns.  `heap` maps element ids (addresses) to holders; `nextId` is the
allocator's next fresh address. -/
structure Multilist (Value : Type) where
  pointers : List MultilistListPointers
  heap : List (Nat × MultilistElementHolder Value)
  nextId : Nat

/-- Dereference an element id: `*holder` in the source.  `none` models a
dangling pointer (dereferencing freed storage is undefined behaviour). -/
def heapGet {Value : Type} (s : Multilist Value) (e : Nat) :
    Option (MultilistElementHolder Value) :=
  (s.heap.find? (fun q => q.1 == e)).map (fun q => q.2)

/-- Overwrite the holder stored at id `e` (a raw pointer write in the source).
Keys are preserved; only the holder at key `e` changes. -/
def heapSet {Value : Type} (s : Multilist Value) (e : Nat)
    (h : MultilistElementHolder Value) : Multilist Value :=
  { s with heap := s.heap.map (fun q => if q.1 == e then (q.1, h) else q) }

/-- `element.pointers(list_index)` (src/lib.rs:171-178,233-236): dereference
the holder and read its link pair for `i`.  `none` models a dangling
dereference or the `debug_assert!(list_index < list_count)`. -/
def pairGet {Value : Type} (s : Multilist Value) (e i : Nat) :
    Option MultilistPointers :=
  match heapGet s e with
  | none => none
  | some h => h.pointers[i]?

/-- In-place update of element `e`'s link pair for list `i`
(the writes through `(*pointers)` in the source). -/
def updatePair {Value : Type} (s : Multilist Value) (e i : Nat)
    (f : MultilistPointers → MultilistPointers) : Option (Multilist Value) :=
  match heapGet s e with
  | none => none
  | some h =>
    match h.pointers[i]? with
    | none => none
    | some p => some (heapSet s e { h with pointers := h.pointers.set i (f p) })

/-- In-place update of the list-table entry for list `i`
(the writes through `list_pointers` in the source); `none` models the
out-of-range index panic of `(*self.pointers.get())[list_index]`. -/
def updateList {Value : Type} (s : Multilist Value) (i : Nat)
    (f : MultilistListPointers → MultilistListPointers) : Option (Multilist Value) :=
  match s.pointers[i]? with
  | none => none
  | some lp => some { s with pointers := s.pointers.set i (f lp) }

/-- `Multilist::new` (src/lib.rs:46-53): `list_count` empty list-table entries.
Note the source performs no check on `list_count`. -/
def Multilist.new {Value : Type} (listCount : Nat) : Multilist Value :=
  { pointers := List.replicate listCount { head := none, tail := none },
    heap := [], nextId := 0 }

/-- `Multilist::list_count` (src/lib.rs:55-60). -/
def Multilist.listCount {Value : Type} (s : Multilist Value) : Nat :=
  s.pointers.length

/-- `Multilist::is_empty` (src/lib.rs:62-67): tests the list's head. -/
def Multilist.isEmptyList {Value : Type} (s : Multilist Value) (i : Nat) :
    Option Bool :=
  match s.pointers[i]? with
  | none => none
  | some lp => some lp.head.isNone

/-- `MultilistElement::is_in_list` (src/lib.rs:253-260): true iff either link
pair field for `i` is non-null. -/
def isInList {Value : Type} (s : Multilist Value) (e i : Nat) : Option Bool :=
  match pairGet s e i with
  | none => none
  | some p => some (p.next.isSome || p.prev.isSome)

/-- `Multilist::push_back_existing` (src/lib.rs:76-93).  Checks, in source
order: the holder dereference, `assert!((*pointers).next.is_null())`,
`debug_assert!((*pointers).prev.is_null())`; then if the list's tail is null
sets the head to the element, otherwise links the current tail's `next` to the
element and the element's `prev` to the current tail; finally sets the tail to
the element. -/
def pushBackExisting {Value : Type} (s : Multilist Value) (i e : Nat) :
    Option (Multilist Value) :=
  match heapGet s e with
  | none => none
  | some h =>
    match h.pointers[i]? with
    | none => none
    | some p =>
      match p.next with
      | some _ => none
      | none =>
        match p.prev with
        | some _ => none
        | none =>
          match s.pointers[i]? with
          | none => none
          | some lp =>
            match lp.tail with
            | none =>
              match updateList s i (fun l => { l with head := some e }) with
              | none => none
              | some s1 => updateList s1 i (fun l => { l with tail := some e })
            | some t =>
              match updatePair s t i (fun q => { q with next := some e }) with
              | none => none
              | some sA =>
                match updatePair sA e i (fun q => { q with prev := some t }) with
                | none => none
                | some s1 => updateList s1 i (fun l => { l with tail := some e })

/-- First half of `Multilist::remove_existing` (src/lib.rs:105-112), reading
the element's pair `p` as captured before any write: if `p.next` is null,
`assert!(list_pointers.tail == element)` and then set the tail to null
(note: to null, not to `p.prev`); otherwise set `(*p.next).prev` to `p.prev`. -/
def removePhase1 {Value : Type} (s : Multilist Value) (i e : Nat)
    (p : MultilistPointers) (lp : MultilistListPointers) : Option (Multilist Value) :=
  match p.next with
  | none =>
    if lp.tail = some e then
      updateList s i (fun l => { l with tail := none })
    else none
  | some n => updatePair s n i (fun q => { q with prev := p.prev })

/-- Second half of `Multilist::remove_existing` (src/lib.rs:113-117): the
source re-reads `(*element.pointers(list_index))` from the current state; if
its `prev` is null the list head becomes its `next`, otherwise
`(*prev).next` becomes its `next`. -/
def removePhase2 {Value : Type} (s1 : Multilist Value) (i e : Nat) :
    Option (Multilist Value) :=
  match pairGet s1 e i with
  | none => none
  | some p1 =>
    match p1.prev with
    | none => updateList s1 i (fun l => { l with head := p1.next })
    | some pr => updatePair s1 pr i (fun q => { q with next := p1.next })

/-- `Multilist::remove_existing` (src/lib.rs:100-119).  Note the source never
clears the removed element's own link pair. -/
def removeExisting {Value : Type} (s : Multilist Value) (i e : Nat) :
    Option (Multilist Value) :=
  match heapGet s e with
  | none => none
  | some h =>
    match h.pointers[i]? with
    | none => none
    | some p =>
      match s.pointers[i]? with
      | none => none
      | some lp =>
        match removePhase1 s i e p lp with
        | none => none
        | some s1 => removePhase2 s1 i e

/-- Models `MultilistElementHolder::size`'s `debug_assert!(list_count > 0)`
(src/lib.rs:164-169); the byte arithmetic itself is memory layout and is not
modelled. -/
def sizeCheck (listCount : Nat) : Option Unit :=
  if 0 < listCount then some () else none

/-- `MultilistElement::new` (src/lib.rs:206-231): one fresh allocation holding
the value and `list_count` link pairs, all initialized null.  Returns the new
state and the fresh element id. -/
def elementNew {Value : Type} (s : Multilist Value) (value : Value) :
    Option (Multilist Value × Nat) :=
  match sizeCheck s.listCount with
  | none => none
  | some _ =>
    some ({ s with
              heap := s.heap ++
                [(s.nextId,
                  { value := value,
                    pointers :=
                      List.replicate s.listCount { next := none, prev := none } })],
              nextId := s.nextId + 1 },
          s.nextId)

/-- `Multilist::push_back` (src/lib.rs:69-74): allocate a brand-new element,
then `push_back_existing` it. -/
def pushBack {Value : Type} (s : Multilist Value) (i : Nat) (value : Value) :
    Option (Multilist Value) :=
  match elementNew s value with
  | none => none
  | some (s1, e) => pushBackExisting s1 i e

/-- The per-list loop of `Multilist::pop_back` (src/lib.rs:134-138):
for `rem` more list indices starting at `j`, detach `tid` from each list it
`is_in_list` of. -/
def popLoop {Value : Type} (tid : Nat) : Nat → Nat → Multilist Value → Option (Multilist Value)
  | _, 0, s => some s
  | j, rem + 1, s =>
    match isInList s tid j with
    | none => none
    | some b =>
      match (if b then removeExisting s j tid else some s) with
      | none => none
      | some s' => popLoop tid (j + 1) rem s'

/-- `Multilist::pop_back` (src/lib.rs:124-143): if the list's tail is null,
return `none` (modelled as `some (s, none)`: the Rust `None` return, not a
failure); otherwise run the detach loop over every list index, then read the
value out of the tail holder and free it. -/
def popBack {Value : Type} (s : Multilist Value) (i : Nat) :
    Option (Multilist Value × Option Value) :=
  match s.pointers[i]? with
  | none => none
  | some lp =>
    match lp.tail with
    | none => some (s, none)
    | some tid =>
      match popLoop tid 0 s.listCount s with
      | none => none
      | some s' =>
        match heapGet s' tid with
        | none => none
        | some h =>
          some ({ s' with heap := s'.heap.filter (fun q => q.1 != tid) },
                some h.value)

/-- The inner `while self.pop_back(i).is_some() {}` of `Drop for Multilist`
(src/lib.rs:40), with fuel. -/
def drainList {Value : Type} (i : Nat) : Nat → Multilist Value → Option (Multilist Value)
  | 0, _ => none
  | fuel + 1, s =>
    match popBack s i with
    | none => none
    | some (s', none) => some s'
    | some (s', some _) => drainList i fuel s'

/-- The outer loop of `Drop for Multilist` (src/lib.rs:37-43): drain list `i`,
then `i + 1`, for `rem` lists.  Fuel for each drain is one more than the
number of live elements, which bounds the number of successful pops. -/
def dropLists {Value : Type} : Nat → Nat → Multilist Value → Option (Multilist Value)
  | _, 0, s => some s
  | i, rem + 1, s =>
    match drainList i (s.heap.length + 1) s with
    | none => none
    | some s' => dropLists (i + 1) rem s'

/-- `impl Drop for Multilist` (src/lib.rs:37-43): repeatedly pop list 0, then
list 1, and so on. -/
def dropMultilist {Value : Type} (s : Multilist Value) : Option (Multilist Value) :=
  dropLists 0 s.listCount s

/-- The iterator walk of `MultilistIterator::next` (src/lib.rs:312-329),
collecting the ids yielded for list `i` starting at `cur`.  `none` models a
dangling dereference, or fuel exhaustion on a cyclic chain (the source would
iterate forever). -/
def iterLoop {Value : Type} (s : Multilist Value) (i : Nat) :
    Nat → Option Nat → Option (List Nat)
  | _, none => some []
  | 0, some _ => none
  | fuel + 1, some e =>
    match pairGet s e i with
    | none => none
    | some p =>
      match iterLoop s i fuel p.next with
      | none => none
      | some rest => some (e :: rest)

/-- `Multilist::iter` (src/lib.rs:145-154) followed by a full walk: the list of
element ids yielded for list `i`, seeded at the list's head. -/
def iterate {Value : Type} (s : Multilist Value) (i : Nat) : Option (List Nat) :=
  match s.pointers[i]? with
  | none => none
  | some lp => iterLoop s i (s.heap.length + 1) lp.head

/-- Iteration of list `i` with each yielded handle dereferenced to its value
(`Deref for MultilistElement`, src/lib.rs:194-203). -/
def listValues {Value : Type} (s : Multilist Value) (i : Nat) : Option (List Value) :=
  match iterate s i with
  | none => none
  | some ids => ids.mapM (fun e => (heapGet s e).map (fun h => h.value))

/-- The head entry of list `i`, for stating facts about the list table. -/
def headOf {Value : Type} (s : Multilist Value) (i : Nat) : Option (Option Nat) :=
  (s.pointers[i]?).map (fun lp => lp.head)

/-- The tail entry of list `i`, for stating facts about the list table. -/
def tailOf {Value : Type} (s : Multilist Value) (i : Nat) : Option (Option Nat) :=
  (s.pointers[i]?).map (fun lp => lp.tail)

/-- Extract the state out of an operation chain; used only on chains that the
accompanying theorems prove to be `some`. -/
def forceState (x : Option (Multilist Nat)) : Multilist Nat :=
  x.getD (Multilist.new 0)

/-- One list, one element: `Multilist::new(1)` then `push_back(0, 10)`.
Element id 0 is the sole member of list 0. -/
def sA : Multilist Nat := forceState (pushBack (Multilist.new 1) 0 10)

/-- One list, two elements: `sA` then `push_back(0, 20)`.  List 0 is
`[10, 20]` (ids `[0, 1]`). -/
def sAB : Multilist Nat := forceState (pushBack sA 0 20)

/-- `sAB` after `remove_existing(0, element 1)`: removal of the tail element. -/
def sABr : Multilist Nat := forceState (removeExisting sAB 0 1)

/-- The state left by `pop_back(0)` on the singleton container `sA`. -/
def sApop : Multilist Nat :=
  ((popBack sA 0).map (fun r => r.1)).getD (Multilist.new 0)

/-- The state left by container teardown (`Drop`) on `sAB`. -/
def sDropd : Multilist Nat := forceState (dropMultilist sAB)

/-- `sA` after attaching its sole member to list 0 again via
`push_back_existing(0, element 0)`. -/
def sSelf : Multilist Nat := forceState (pushBackExisting sA 0 0)

/-- Two lists, two elements inserted into list 0: list 0 is `[10, 20]`. -/
def sM0 : Multilist Nat :=
  forceState ((pushBack (Multilist.new 2) 0 10).bind (fun s => pushBack s 0 20))

/-- `sM0` with both elements also attached to list 1: both lists are
`[10, 20]` (ids `[0, 1]`). -/
def sM1 : Multilist Nat :=
  forceState ((pushBackExisting sM0 1 0).bind (fun s => pushBackExisting s 1 1))

/-- `sM1` after `remove_existing(0, element 1)`: element 1 detached from
list 0 only, while both elements remain members of list 1. -/
def sM2 : Multilist Nat := forceState (removeExisting sM1 0 1)

theorem heapGet_heapSet_other {Value : Type} (s : Multilist Value) (e a : Nat)
    (h : MultilistElementHolder Value) (hne : a ≠ e) :
    heapGet (heapSet s e h) a = heapGet s a := by
  unfold heapGet heapSet
  simp only [List.find?_map]
  have hp : ((fun q : Nat × MultilistElementHolder Value => q.1 == a) ∘
      (fun q => if q.1 == e then (q.1, h) else q)) =
      fun q : Nat × MultilistElementHolder Value => q.1 == a := by
    funext q
    by_cases hq : q.1 = e <;> simp [hq]
  rw [hp]
  cases hf : s.heap.find? (fun q => q.1 == a) with
  | none => rfl
  | some q =>
    have hqa : q.1 = a := by simpa using List.find?_some hf
    simp [hqa, hne]

theorem heapGet_heapSet_self {Value : Type} (s : Multilist Value) (e : Nat)
    (h h0 : MultilistElementHolder Value) (h0eq : heapGet s e = some h0) :
    heapGet (heapSet s e h) e = some h := by
  unfold heapGet heapSet
  unfold heapGet at h0eq
  simp only [List.find?_map]
  have hp : ((fun q : Nat × MultilistElementHolder Value => q.1 == e) ∘
      (fun q => if q.1 == e then (q.1, h) else q)) =
      fun q : Nat × MultilistElementHolder Value => q.1 == e := by
    funext q
    by_cases hq : q.1 = e <;> simp [hq]
  rw [hp]
  cases hf : s.heap.find? (fun q => q.1 == e) with
  | none => rw [hf] at h0eq; exact Option.noConfusion h0eq
  | some q =>
    have hqe : q.1 = e := by simpa using List.find?_some hf
    simp [hqe]

theorem updatePair_pointers {Value : Type} {s s' : Multilist Value} {e i : Nat}
    {f : MultilistPointers → MultilistPointers}
    (hu : updatePair s e i f = some s') : s'.pointers = s.pointers := by
  unfold updatePair at hu
  split at hu
  · exact Option.noConfusion hu
  · split at hu
    · exact Option.noConfusion hu
    · injection hu with hu
      rw [← hu]
      rfl

theorem pairGet_updatePair_other {Value : Type} {s s' : Multilist Value}
    {e i : Nat} {f : MultilistPointers → MultilistPointers}
    (hu : updatePair s e i f = some s') (a j : Nat) (hne : a ≠ e) :
    pairGet s' a j = pairGet s a j := by
  unfold updatePair at hu
  split at hu
  · exact Option.noConfusion hu
  · split at hu
    · exact Option.noConfusion hu
    · injection hu with hu
      rw [← hu]
      unfold pairGet
      rw [heapGet_heapSet_other _ _ _ _ hne]

theorem pairGet_updatePair_self_ne {Value : Type} {s s' : Multilist Value}
    {e i : Nat} {f : MultilistPointers → MultilistPointers}
    (hu : updatePair s e i f = some s') (j : Nat) (hne : j ≠ i) :
    pairGet s' e j = pairGet s e j := by
  unfold updatePair at hu
  split at hu
  · exact Option.noConfusion hu
  · rename_i h hg
    split at hu
    · exact Option.noConfusion hu
    · rename_i p hp
      injection hu with hu
      rw [← hu]
      unfold pairGet
      rw [heapGet_heapSet_self _ _ _ h hg, hg]
      exact List.getElem?_set_ne (Ne.symm hne)

theorem pairGet_updatePair_ne_idx {Value : Type} {s s' : Multilist Value}
    {e i : Nat} {f : MultilistPointers → MultilistPointers}
    (hu : updatePair s e i f = some s') (a j : Nat) (hne : j ≠ i) :
    pairGet s' a j = pairGet s a j := by
  by_cases ha : a = e
  · subst ha
    exact pairGet_updatePair_self_ne hu j hne
  · exact pairGet_updatePair_other hu a j ha

theorem updateList_heap {Value : Type} {s s' : Multilist Value} {i : Nat}
    {f : MultilistListPointers → MultilistListPointers}
    (hu : updateList s i f = some s') : s'.heap = s.heap := by
  unfold updateList at hu
  split at hu
  · exact Option.noConfusion hu
  · injection hu with hu
    rw [← hu]

theorem updateList_get_ne {Value : Type} {s s' : Multilist Value} {i : Nat}
    {f : MultilistListPointers → MultilistListPointers}
    (hu : updateList s i f = some s') (j : Nat) (hne : j ≠ i) :
    s'.pointers[j]? = s.pointers[j]? := by
  unfold updateList at hu
  split at hu
  · exact Option.noConfusion hu
  · injection hu with hu
    rw [← hu]
    exact List.getElem?_set_ne (Ne.symm hne)

theorem pairGet_congr_heap {Value : Type} {s s' : Multilist Value}
    (hh : s'.heap = s.heap) (a j : Nat) : pairGet s' a j = pairGet s a j := by
  unfold pairGet heapGet
  rw [hh]

theorem isInList_eq_map {Value : Type} (s : Multilist Value) (a j : Nat) :
    isInList s a j =
      (pairGet s a j).map (fun p => p.next.isSome || p.prev.isSome) := by
  unfold isInList
  cases pairGet s a j <;> rfl

theorem removePhase1_preserves {Value : Type} {s s' : Multilist Value}
    {i e : Nat} {p : MultilistPointers} {lp : MultilistListPointers}
    (hu : removePhase1 s i e p lp = some s') (j : Nat) (hne : j ≠ i) :
    s'.pointers[j]? = s.pointers[j]? ∧ ∀ a, pairGet s' a j = pairGet s a j := by
  unfold removePhase1 at hu
  split at hu
  · split at hu
    · exact ⟨updateList_get_ne hu j hne,
        fun a => pairGet_congr_heap (updateList_heap hu) a j⟩
    · exact Option.noConfusion hu
  · refine ⟨?_, fun a => pairGet_updatePair_ne_idx hu a j hne⟩
    rw [updatePair_pointers hu]

theorem removePhase2_preserves {Value : Type} {s1 s' : Multilist Value}
    {i e : Nat} (hu : removePhase2 s1 i e = some s') (j : Nat) (hne : j ≠ i) :
    s'.pointers[j]? = s1.pointers[j]? ∧ ∀ a, pairGet s' a j = pairGet s1 a j := by
  unfold removePhase2 at hu
  split at hu
  · exact Option.noConfusion hu
  · split at hu
    · exact ⟨updateList_get_ne hu j hne,
        fun a => pairGet_congr_heap (updateList_heap hu) a j⟩
    · refine ⟨?_, fun a => pairGet_updatePair_ne_idx hu a j hne⟩
      rw [updatePair_pointers hu]

theorem removeExisting_preserves {Value : Type} {s s' : Multilist Value}
    {i e : Nat} (hrm : removeExisting s i e = some s') (j : Nat) (hne : j ≠ i) :
    s'.pointers[j]? = s.pointers[j]? ∧ ∀ a, pairGet s' a j = pairGet s a j := by
  unfold removeExisting at hrm
  split at hrm
  · exact Option.noConfusion hrm
  · split at hrm
    · exact Option.noConfusion hrm
    · split at hrm
      · exact Option.noConfusion hrm
      · split at hrm
        · exact Option.noConfusion hrm
        · rename_i s1 h1
          obtain ⟨hl1, hp1⟩ := removePhase1_preserves h1 j hne
          obtain ⟨hl2, hp2⟩ := removePhase2_preserves hrm j hne
          exact ⟨hl2.trans hl1, fun a => (hp2 a).trans (hp1 a)⟩

theorem pairGet_destruct {Value : Type} {s : Multilist Value} {e i : Nat}
    {p : MultilistPointers} (hp : pairGet s e i = some p) :
    ∃ h, heapGet s e = some h ∧ h.pointers[i]? = some p := by
  unfold pairGet at hp
  cases hge : heapGet s e with
  | none => rw [hge] at hp; exact Option.noConfusion hp
  | some h => rw [hge] at hp; exact ⟨h, rfl, hp⟩

theorem removeExisting_pair_unchanged {Value : Type} {s s' : Multilist Value}
    {i e : Nat} {p : MultilistPointers} (hp : pairGet s e i = some p)
    (hn : p.next ≠ some e) (hpr : p.prev ≠ some e)
    (hrm : removeExisting s i e = some s') : pairGet s' e i = some p := by
  obtain ⟨h0, hge0, hpi0⟩ := pairGet_destruct hp
  unfold removeExisting at hrm
  split at hrm
  · exact Option.noConfusion hrm
  · rename_i h hge
    split at hrm
    · exact Option.noConfusion hrm
    · rename_i q hq
      split at hrm
      · exact Option.noConfusion hrm
      · rename_i lp hlp
        split at hrm
        · exact Option.noConfusion hrm
        · rename_i s1 h1
          have hhh : h0 = h := by
            rw [hge0] at hge
            exact Option.some.inj hge
          have hqp : q = p := by
            rw [hhh] at hpi0
            rw [hpi0] at hq
            exact (Option.some.inj hq).symm
          rw [hqp] at h1
          have hs1 : pairGet s1 e i = some p := by
            unfold removePhase1 at h1
            split at h1
            · split at h1
              · exact (pairGet_congr_heap (updateList_heap h1) e i).trans hp
              · exact Option.noConfusion h1
            · rename_i n hpn
              have hen : e ≠ n := by
                intro hcon
                exact hn (by rw [hpn, hcon])
              exact (pairGet_updatePair_other h1 e i hen).trans hp
          unfold removePhase2 at hrm
          split at hrm
          · exact Option.noConfusion hrm
          · rename_i p1 hp1
            have hp1p : p1 = p := by
              rw [hs1] at hp1
              exact (Option.some.inj hp1).symm
            rw [hp1p] at hrm
            split at hrm
            · exact (pairGet_congr_heap (updateList_heap hrm) e i).trans hs1
            · rename_i pr hpp
              have hepr : e ≠ pr := by
                intro hcon
                exact hpr (by rw [hpp, hcon])
              exact (pairGet_updatePair_other hrm e i hepr).trans hs1

/-- C1: the claim says `pop_back(list_index)` detaches the popped tail element
from every list it is a member of, so that afterwards it is absent from every
list's iteration.  Evaluation at the failing input (a one-list container whose
list holds the single element `10`, id 0): `pop_back(0)` returns the value and
frees the storage, but because `is_in_list` is false for a sole member (both
link fields null) it never detaches the element, leaving the list table's head
and tail pointing at the freed storage; iterating the list afterwards
dereferences the dangling pointer (modelled as `none`). -/
theorem popBack_sole_member_leaves_dangling :
    popBack sA 0 = some (sApop, some 10) ∧
      headOf sApop 0 = some (some 0) ∧
      tailOf sApop 0 = some (some 0) ∧
      heapGet sApop 0 = none ∧
      iterate sApop 0 = none :=
  ⟨rfl, rfl, rfl, rfl, rfl⟩

/-- C2: the claim says container teardown drains every list and frees every
distinct live element exactly once.  Evaluation at the failing input (one list
holding `[10, 20]`): the `Drop` loop pops element 1 (value 20), whose removal
sets the list's tail to null instead of to its predecessor; the next
`pop_back` therefore sees a null tail and stops, so element 0 (value 10) is
never freed — it survives teardown while still reachable from the list head. -/
theorem dropMultilist_leaks_element :
    dropMultilist sAB = some sDropd ∧
      sDropd.heap.length = 1 ∧
      heapGet sDropd 0 =
        some { value := 10, pointers := [{ next := none, prev := none }] } ∧
      headOf sDropd 0 = some (some 0) ∧
      tailOf sDropd 0 = some none :=
  ⟨rfl, rfl, rfl, rfl, rfl⟩

/-- C3: the claim (and the spec) say that when the detached element has no
`next` (it is the tail), the list's tail becomes the element's `prev`
reference.  Evaluation at the failing input (list 0 is `[10, 20]`, remove the
tail element 1 whose `prev` is element 0): the code sets the tail to null
(src/lib.rs:109), not to `prev` = element 0, while the symmetric head case is
handled as the claim states. -/
theorem removeExisting_tail_becomes_null_not_prev :
    pairGet sAB 1 0 = some { next := none, prev := some 0 } ∧
      removeExisting sAB 0 1 = some sABr ∧
      tailOf sABr 0 = some none ∧
      headOf sABr 0 = some (some 0) :=
  ⟨rfl, rfl, rfl, rfl⟩

/-- C4: the claim says that in every state reachable by insert/attach/
detach/pop operations, a list's head is empty iff its tail is empty iff the
list has zero members.  Evaluation at the failing input: starting from
`Multilist::new(1)`, insert 10, insert 20, then `remove_existing` the tail
element — reachable by exactly those operations — yields a state whose list 0
has a non-empty head (element 0), iterates as the one-member list `[10]`, yet
has an empty tail. -/
theorem head_tail_emptiness_invariant_fails :
    removeExisting sAB 0 1 = some sABr ∧
      headOf sABr 0 = some (some 0) ∧
      listValues sABr 0 = some [10] ∧
      Multilist.isEmptyList sABr 0 = some false ∧
      tailOf sABr 0 = some none :=
  ⟨rfl, rfl, rfl, rfl, rfl⟩

/-- C5 counterexample: the claim says that after `remove_existing(i, handle)`
the element's `is_in_list(i)` returns false (both link fields empty).  In the
state obtained by inserting `[10, 20]` into list 0 and removing the tail
element 1, that element's link pair for list 0 still holds `prev = element 0`
(the code never clears the removed element's own fields), so `is_in_list(0)`
still returns true. -/
theorem isInList_true_after_removeExisting :
    removeExisting sAB 0 1 = some sABr ∧
      isInList sABr 1 0 = some true ∧
      pairGet sABr 1 0 = some { next := none, prev := some 0 } :=
  ⟨rfl, rfl, rfl⟩

/-- C5 amended: `remove_existing(i, element)` never writes the removed
element's own link pair for list `i` (provided the element is not its own
neighbour there), so the pair keeps its old value and `is_in_list(i)` returns
exactly what it returned before the call — false only if the element was a
sole member with both fields already empty. -/
theorem removeExisting_keeps_membership_bits {Value : Type}
    (s s' : Multilist Value) (i e : Nat) (p : MultilistPointers)
    (hp : pairGet s e i = some p) (hn : p.next ≠ some e)
    (hpr : p.prev ≠ some e) (hrm : removeExisting s i e = some s') :
    pairGet s' e i = some p ∧ isInList s' e i = isInList s e i := by
  have hkeep := removeExisting_pair_unchanged hp hn hpr hrm
  refine ⟨hkeep, ?_⟩
  rw [isInList_eq_map, isInList_eq_map, hkeep, hp]

theorem removeExisting_keeps_membership_bits_witness :
    pairGet sABr 1 0 = some { next := none, prev := some 0 } ∧
      isInList sABr 1 0 = isInList sAB 1 0 :=
  removeExisting_keeps_membership_bits sAB sABr 0 1
    { next := none, prev := some 0 } rfl (by decide) (by decide) rfl

/-- C6 counterexample: the claim says attaching an element to a list it is
already a member of always fails the fatal precondition check, in any
position including sole member.  In the one-list container whose list 0 holds
the single element 0 (head and tail both reference it), that element's link
pair is empty, so `push_back_existing(0, element 0)` passes both the
`assert!` on `next` and the `debug_assert!` on `prev`, succeeds silently, and
links the element to itself (`next = prev = element 0`); iterating the list
afterwards never terminates (modelled by fuel exhaustion as `none`). -/
theorem pushBackExisting_sole_member_self_links :
    headOf sA 0 = some (some 0) ∧
      tailOf sA 0 = some (some 0) ∧
      pushBackExisting sA 0 0 = some sSelf ∧
      pairGet sSelf 0 0 = some { next := some 0, prev := some 0 } ∧
      iterate sSelf 0 = none :=
  ⟨rfl, rfl, rfl, rfl, rfl⟩

/-- C6 amended: `push_back_existing(i, element)` fails its fatal precondition
checks whenever either field of the element's link pair for list `i` is
non-empty — that is, for a member in head, middle or tail position (`next`
non-empty fails the `assert!`; `prev` non-empty fails the `debug_assert!`,
enforced in debug builds).  A sole member of list `i` has an empty pair,
passes both checks, and the attach silently creates a self-referential link
(see the accompanying counterexample). -/
theorem pushBackExisting_member_fails {Value : Type} (s : Multilist Value)
    (i e : Nat) (p : MultilistPointers) (hp : pairGet s e i = some p)
    (hmem : p.next ≠ none ∨ p.prev ≠ none) :
    pushBackExisting s i e = none := by
  obtain ⟨h, hge, hpi⟩ := pairGet_destruct hp
  unfold pushBackExisting
  split
  · rfl
  · rename_i h2 hge2
    split
    · rfl
    · rename_i p2 hp2
      have hh : h2 = h := by
        rw [hge] at hge2
        exact (Option.some.inj hge2).symm
      have hpp2 : p2 = p := by
        rw [hh] at hp2
        rw [hpi] at hp2
        exact (Option.some.inj hp2).symm
      split
      · rfl
      · rename_i hpn
        split
        · rfl
        · rename_i hpv
          exfalso
          rcases hmem with hm | hm
          · exact hm (by rw [← hpp2, hpn])
          · exact hm (by rw [← hpp2, hpv])

theorem pushBackExisting_member_fails_witness :
    pushBackExisting sAB 0 1 = none :=
  pushBackExisting_member_fails sAB 0 1 { next := none, prev := some 0 } rfl
    (Or.inr (by decide))

/-- C7: `remove_existing(i, element)` only writes the element's neighbours'
link pairs for list `i` and list `i`'s table entry, so for every other list
`j ≠ i` it leaves that list's head/tail entry, every element's link pair for
`j`, and in particular the element's own membership in `j`, unchanged. -/
theorem removeExisting_frames_other_lists {Value : Type}
    (s s' : Multilist Value) (i e j a : Nat) (hne : j ≠ i)
    (hrm : removeExisting s i e = some s') :
    s'.pointers[j]? = s.pointers[j]? ∧ pairGet s' a j = pairGet s a j ∧
      isInList s' a j = isInList s a j := by
  obtain ⟨hl, hpair⟩ := removeExisting_preserves hrm j hne
  refine ⟨hl, hpair a, ?_⟩
  rw [isInList_eq_map, isInList_eq_map, hpair a]

theorem removeExisting_frames_other_lists_witness :
    sM2.pointers[1]? = sM1.pointers[1]? ∧ pairGet sM2 1 1 = pairGet sM1 1 1 ∧
      isInList sM2 1 1 = isInList sM1 1 1 :=
  removeExisting_frames_other_lists sM1 sM2 0 1 1 1 (by decide) rfl

/-- C8: tail-append preserves insertion order.  Inserting values `a, b, c` in
that order into one list — by `push_back` of brand-new elements, or by
`push_back` into list 0 followed by `push_back_existing` of those elements
into list 1 in the same order — makes iteration of that list yield exactly
`a, b, c`. -/
theorem insertion_order_preserved (Value : Type) (a b c : Value) :
    ((((pushBack (Multilist.new 1 : Multilist Value) 0 a).bind
          (fun s => pushBack s 0 b)).bind
        (fun s => pushBack s 0 c)).bind
      (fun s => listValues s 0)) = some [a, b, c] ∧
    ((((((((pushBack (Multilist.new 2 : Multilist Value) 0 a).bind
          (fun s => pushBack s 0 b)).bind
        (fun s => pushBack s 0 c)).bind
      (fun s => pushBackExisting s 1 0)).bind
      (fun s => pushBackExisting s 1 1)).bind
      (fun s => pushBackExisting s 1 2)).bind
      (fun s => listValues s 1))) = some [a, b, c] := by
  constructor
  · have g1 : pushBack (Multilist.new 1 : Multilist Value) 0 a =
        some ⟨[⟨some 0, some 0⟩], [(0, ⟨a, [⟨none, none⟩]⟩)], 1⟩ := rfl
    have g2 : pushBack (⟨[⟨some 0, some 0⟩],
          [(0, ⟨a, [⟨none, none⟩]⟩)], 1⟩ : Multilist Value) 0 b =
        some ⟨[⟨some 0, some 1⟩],
          [(0, ⟨a, [⟨some 1, none⟩]⟩), (1, ⟨b, [⟨none, some 0⟩]⟩)], 2⟩ := rfl
    have g3 : pushBack (⟨[⟨some 0, some 1⟩],
          [(0, ⟨a, [⟨some 1, none⟩]⟩), (1, ⟨b, [⟨none, some 0⟩]⟩)],
          2⟩ : Multilist Value) 0 c =
        some ⟨[⟨some 0, some 2⟩],
          [(0, ⟨a, [⟨some 1, none⟩]⟩), (1, ⟨b, [⟨some 2, some 0⟩]⟩),
           (2, ⟨c, [⟨none, some 1⟩]⟩)], 3⟩ := rfl
    have g4 : listValues (⟨[⟨some 0, some 2⟩],
          [(0, ⟨a, [⟨some 1, none⟩]⟩), (1, ⟨b, [⟨some 2, some 0⟩]⟩),
           (2, ⟨c, [⟨none, some 1⟩]⟩)], 3⟩ : Multilist Value) 0 =
        some [a, b, c] := rfl
    rw [g1, Option.some_bind, g2, Option.some_bind, g3, Option.some_bind, g4]
  · have h1 : pushBack (Multilist.new 2 : Multilist Value) 0 a =
        some ⟨[⟨some 0, some 0⟩, ⟨none, none⟩],
          [(0, ⟨a, [⟨none, none⟩, ⟨none, none⟩]⟩)], 1⟩ := rfl
    have h2 : pushBack (⟨[⟨some 0, some 0⟩, ⟨none, none⟩],
          [(0, ⟨a, [⟨none, none⟩, ⟨none, none⟩]⟩)], 1⟩ : Multilist Value) 0 b =
        some ⟨[⟨some 0, some 1⟩, ⟨none, none⟩],
          [(0, ⟨a, [⟨some 1, none⟩, ⟨none, none⟩]⟩),
           (1, ⟨b, [⟨none, some 0⟩, ⟨none, none⟩]⟩)], 2⟩ := rfl
    have h3 : pushBack (⟨[⟨some 0, some 1⟩, ⟨none, none⟩],
          [(0, ⟨a, [⟨some 1, none⟩, ⟨none, none⟩]⟩),
           (1, ⟨b, [⟨none, some 0⟩, ⟨none, none⟩]⟩)], 2⟩ : Multilist Value) 0 c =
        some ⟨[⟨some 0, some 2⟩, ⟨none, none⟩],
          [(0, ⟨a, [⟨some 1, none⟩, ⟨none, none⟩]⟩),
           (1, ⟨b, [⟨some 2, some 0⟩, ⟨none, none⟩]⟩),
           (2, ⟨c, [⟨none, some 1⟩, ⟨none, none⟩]⟩)], 3⟩ := rfl
    have h4 : pushBackExisting (⟨[⟨some 0, some 2⟩, ⟨none, none⟩],
          [(0, ⟨a, [⟨some 1, none⟩, ⟨none, none⟩]⟩),
           (1, ⟨b, [⟨some 2, some 0⟩, ⟨none, none⟩]⟩),
           (2, ⟨c, [⟨none, some 1⟩, ⟨none, none⟩]⟩)], 3⟩ : Multilist Value) 1 0 =
        some ⟨[⟨some 0, some 2⟩, ⟨some 0, some 0⟩],
          [(0, ⟨a, [⟨some 1, none⟩, ⟨none, none⟩]⟩),
           (1, ⟨b, [⟨some 2, some 0⟩, ⟨none, none⟩]⟩),
           (2, ⟨c, [⟨none, some 1⟩, ⟨none, none⟩]⟩)], 3⟩ := rfl
    have h5 : pushBackExisting (⟨[⟨some 0, some 2⟩, ⟨some 0, some 0⟩],
          [(0, ⟨a, [⟨some 1, none⟩, ⟨none, none⟩]⟩),
           (1, ⟨b, [⟨some 2, some 0⟩, ⟨none, none⟩]⟩),
           (2, ⟨c, [⟨none, some 1⟩, ⟨none, none⟩]⟩)], 3⟩ : Multilist Value) 1 1 =
        some ⟨[⟨some 0, some 2⟩, ⟨some 0, some 1⟩],
          [(0, ⟨a, [⟨some 1, none⟩, ⟨some 1, none⟩]⟩),
           (1, ⟨b, [⟨some 2, some 0⟩, ⟨none, some 0⟩]⟩),
           (2, ⟨c, [⟨none, some 1⟩, ⟨none, none⟩]⟩)], 3⟩ := rfl
    have h6 : pushBackExisting (⟨[⟨some 0, some 2⟩, ⟨some 0, some 1⟩],
          [(0, ⟨a, [⟨some 1, none⟩, ⟨some 1, none⟩]⟩),
           (1, ⟨b, [⟨some 2, some 0⟩, ⟨none, some 0⟩]⟩),
           (2, ⟨c, [⟨none, some 1⟩, ⟨none, none⟩]⟩)], 3⟩ : Multilist Value) 1 2 =
        some ⟨[⟨some 0, some 2⟩, ⟨some 0, some 2⟩],
          [(0, ⟨a, [⟨some 1, none⟩, ⟨some 1, none⟩]⟩),
           (1, ⟨b, [⟨some 2, some 0⟩, ⟨some 2, some 0⟩]⟩),
           (2, ⟨c, [⟨none, some 1⟩, ⟨none, some 1⟩]⟩)], 3⟩ := rfl
    have h7 : listValues (⟨[⟨some 0, some 2⟩, ⟨some 0, some 2⟩],
          [(0, ⟨a, [⟨some 1, none⟩, ⟨some 1, none⟩]⟩),
           (1, ⟨b, [⟨some 2, some 0⟩, ⟨some 2, some 0⟩]⟩),
           (2, ⟨c, [⟨none, some 1⟩, ⟨none, some 1⟩]⟩)], 3⟩ : Multilist Value) 1 =
        some [a, b, c] := rfl
    rw [h1, Option.some_bind, h2, Option.some_bind, h3, Option.some_bind,
      h4, Option.some_bind, h5, Option.some_bind, h6, Option.some_bind, h7]

/-- C9: `is_in_list(i)` returns true iff either link field for list `i` is
non-null, so every element whose link pair for `i` is empty — which includes
a sole member of list `i`, alone between two empty edges — reports false; the
check cannot distinguish a singleton member from a non-member.  The witness
instantiates this at a genuine sole member: the single element of a freshly
populated one-element list. -/
theorem isInList_false_of_empty_pair {Value : Type} (s : Multilist Value)
    (e i : Nat) (hp : pairGet s e i = some { next := none, prev := none }) :
    isInList s e i = some false := by
  rw [isInList_eq_map, hp]
  rfl

theorem isInList_false_of_empty_pair_witness :
    headOf sA 0 = some (some 0) ∧ tailOf sA 0 = some (some 0) ∧
      listValues sA 0 = some [10] ∧ isInList sA 0 0 = some false :=
  ⟨rfl, rfl, rfl, isInList_false_of_empty_pair sA 0 0 rfl⟩

/-- C10 counterexample: the claim says `Multilist::new(0)` fails fatally as a
precondition violation.  In the source `Multilist::new` performs no check at
all: `new(0)` succeeds and returns a container with zero lists and no
elements. -/
theorem new_zero_lists_succeeds :
    (Multilist.new 0 : Multilist Nat).listCount = 0 ∧
      (Multilist.new 0 : Multilist Nat).heap = [] :=
  ⟨rfl, rfl⟩

/-- C10 amended: construction succeeds for every `list_count`, including 0,
yielding a container with exactly `list_count` lists; the
`list_count > 0` requirement is only a debug assertion inside
`MultilistElementHolder::size`, reached when the first element is allocated,
so it is insertion into a zero-list container that fails, not construction. -/
theorem new_performs_no_check (n i v : Nat) :
    (Multilist.new n : Multilist Nat).listCount = n ∧
      pushBack (Multilist.new 0 : Multilist Nat) i v = none := by
  constructor
  · simp [Multilist.new, Multilist.listCount]
  · rfl
